import Mathlib

/-!
Shallow embedding of the StretchTime core (reminder scheduler, calendar
availability aggregator, token lifecycle managers and PKCE authenticators)
translated from the TypeScript sources in `src/main/`.  Wall-clock instants
are modelled as `Int` milliseconds (JavaScript `Date.now()` values); network
calls are modelled by passing their outcome explicitly; JavaScript string
truthiness (`!!s`) is modelled as "not the empty string".
-/

/-! ## Data model (store.ts) -/

/-- Google persisted token set, `AppSettings.googleTokens` in store.ts. -/
structure GoogleTokens where
  access_token : String
  refresh_token : String
  expiry_date : Int
deriving DecidableEq, Repr

/-- Outlook persisted token set, `AppSettings.outlookTokens` in store.ts. -/
structure OutlookTokens where
  accessToken : String
  refreshToken : String
  expiresOn : Int
deriving DecidableEq, Repr

/-- Per-provider enabled flags, `AppSettings.calendarProviders` in store.ts. -/
structure CalendarProviders where
  google : Bool
  outlook : Bool
deriving DecidableEq, Repr

/-- The persisted configuration, `AppSettings` in store.ts. -/
structure AppSettings where
  stretchIntervalMinutes : Int
  preMeetingBufferMinutes : Int
  snoozeDurationMinutes : Int
  calendarProviders : CalendarProviders
  blockOnTentative : Bool
  googleClientId : String
  outlookClientId : String
  outlookTenantId : String
  googleTokens : Option GoogleTokens
  outlookTokens : Option OutlookTokens
deriving DecidableEq, Repr

/-! ## Connectivity (google-calendar.ts / outlook-calendar.ts / main.ts) -/

/-- `GoogleCalendarClient.isConnected`: `!!getSettings().googleTokens?.refresh_token`. -/
def GoogleCalendarClient.isConnected (s : AppSettings) : Bool :=
  match s.googleTokens with
  | none => false
  | some t => t.refresh_token != ""

/-- `OutlookCalendarClient.isConnected`: `!!getSettings().outlookTokens?.refreshToken`. -/
def OutlookCalendarClient.isConnected (s : AppSettings) : Bool :=
  match s.outlookTokens with
  | none => false
  | some t => t.refreshToken != ""

/-- The object returned by the `get-settings` IPC handler in main.ts. -/
structure SettingsView where
  stretchIntervalMinutes : Int
  preMeetingBufferMinutes : Int
  snoozeDurationMinutes : Int
  calendarProviders : CalendarProviders
  blockOnTentative : Bool
  googleClientId : String
  outlookClientId : String
  outlookTenantId : String
  googleConnected : Bool
  outlookConnected : Bool
deriving DecidableEq, Repr

/-- The `get-settings` IPC handler in main.ts.  Note that it computes
`googleConnected` from `googleTokens?.refresh_token` but `outlookConnected`
from `outlookTokens?.accessToken`. -/
def getSettingsHandler (s : AppSettings) : SettingsView :=
  { stretchIntervalMinutes := s.stretchIntervalMinutes
    preMeetingBufferMinutes := s.preMeetingBufferMinutes
    snoozeDurationMinutes := s.snoozeDurationMinutes
    calendarProviders := s.calendarProviders
    blockOnTentative := s.blockOnTentative
    googleClientId := s.googleClientId
    outlookClientId := s.outlookClientId
    outlookTenantId := s.outlookTenantId
    googleConnected :=
      match s.googleTokens with
      | none => false
      | some t => t.refresh_token != ""
    outlookConnected :=
      match s.outlookTokens with
      | none => false
      | some t => t.accessToken != "" }

/-! ## Reminder scheduler (timer.ts, class StretchTimer) -/

/-- The mutable state of `StretchTimer`: `lastStretchTime`, `paused`,
`snoozedUntil` (timer handles are platform plumbing and carry no decision
state). -/
structure StretchTimer where
  lastStretchTime : Int
  paused : Bool
  snoozedUntil : Int
deriving DecidableEq, Repr

/-- `StretchTimer.start`: resets `lastStretchTime` to now and clears `paused`. -/
def StretchTimer.start (t : StretchTimer) (now : Int) : StretchTimer :=
  { t with lastStretchTime := now, paused := false }

/-- `StretchTimer.pause`. -/
def StretchTimer.pause (t : StretchTimer) : StretchTimer :=
  { t with paused := true }

/-- `StretchTimer.resume`: clears `paused` and resets `lastStretchTime` to now. -/
def StretchTimer.resume (t : StretchTimer) (now : Int) : StretchTimer :=
  { t with paused := false, lastStretchTime := now }

/-- `StretchTimer.isPaused`. -/
def StretchTimer.isPaused (t : StretchTimer) : Bool :=
  t.paused

/-- `StretchTimer.snooze`: `snoozedUntil = Date.now() + snoozeDurationMinutes * 60_000`. -/
def StretchTimer.snooze (t : StretchTimer) (s : AppSettings) (now : Int) : StretchTimer :=
  { t with snoozedUntil := now + s.snoozeDurationMinutes * 60000 }

/-- `StretchTimer.resetTimer`: `lastStretchTime = now; snoozedUntil = 0`. -/
def StretchTimer.resetTimer (t : StretchTimer) (now : Int) : StretchTimer :=
  { t with lastStretchTime := now, snoozedUntil := 0 }

/-- `StretchTimer.getRemainingMs`. -/
def StretchTimer.getRemainingMs (t : StretchTimer) (s : AppSettings) (now : Int) : Int :=
  if t.paused then -1
  else if now < t.snoozedUntil then t.snoozedUntil - now
  else max 0 (s.stretchIntervalMinutes * 60000 - (now - t.lastStretchTime))

/-- The signals emitted by one call of `StretchTimer.tick`. -/
structure TickResult where
  tickEmitted : Bool
  stretchDueEmitted : Bool
deriving DecidableEq, Repr

/-- `StretchTimer.tick`: always emits `tick`; emits `stretch-due` only when
not paused, not snoozed, and `now - lastStretchTime >= stretchIntervalMinutes * 60_000`. -/
def StretchTimer.tick (t : StretchTimer) (s : AppSettings) (now : Int) : TickResult :=
  { tickEmitted := true
    stretchDueEmitted :=
      if t.paused then false
      else if now < t.snoozedUntil then false
      else if now - t.lastStretchTime ≥ s.stretchIntervalMinutes * 60000 then true
      else false }

/-! ## Provider calendar clients (google-calendar.ts / outlook-calendar.ts) -/

/-- The normalized event shape, `CalendarEvent` in both provider clients. -/
structure CalendarEvent where
  summary : String
  start : Int
  «end» : Int
  status : String
deriving DecidableEq, Repr

/-- A raw Google calendar API item, as consumed by
`GoogleCalendarClient.getUpcomingEvents` (ISO timestamps abstracted to
millisecond instants; a missing `summary`/`status` is the empty string). -/
structure RawGoogleEvent where
  summary : String
  startTime : Int
  endTime : Int
  status : String
deriving DecidableEq, Repr

/-- A raw Microsoft Graph calendarView item, as consumed by
`OutlookCalendarClient.getUpcomingEvents` (a missing `subject`/`showAs` is the
empty string). -/
structure RawOutlookEvent where
  subject : String
  startTime : Int
  endTime : Int
  showAs : String
deriving DecidableEq, Repr

/-- The outcome of one provider event-list HTTP fetch: a successful response
body, a non-ok HTTP status, or a thrown network error. -/
inductive FetchOutcome (α : Type) where
  | success (items : List α)
  | httpError
  | networkError
deriving DecidableEq, Repr

/-- `GoogleCalendarClient.getUpcomingEvents`: returns `[]` when not connected;
on success filters out `cancelled` items and normalizes (`status || 'confirmed'`,
`summary || '(No title)'`); returns `[]` on a non-ok response or a thrown error. -/
def GoogleCalendarClient.getUpcomingEvents (s : AppSettings)
    (g : FetchOutcome RawGoogleEvent) : List CalendarEvent :=
  if !GoogleCalendarClient.isConnected s then []
  else
    match g with
    | .success items =>
        (items.filter (fun e => !(e.status == "cancelled"))).map (fun e =>
          { summary := if e.summary == "" then "(No title)" else e.summary
            start := e.startTime
            «end» := e.endTime
            status := if e.status == "" then "confirmed" else e.status })
    | .httpError => []
    | .networkError => []

/-- `OutlookCalendarClient.getUpcomingEvents`: returns `[]` when not connected;
on success normalizes (`showAs || 'busy'`, `subject || '(No title)'`);
returns `[]` on a non-ok response or a thrown error. -/
def OutlookCalendarClient.getUpcomingEvents (s : AppSettings)
    (o : FetchOutcome RawOutlookEvent) : List CalendarEvent :=
  if !OutlookCalendarClient.isConnected s then []
  else
    match o with
    | .success items =>
        items.map (fun e =>
          { summary := if e.subject == "" then "(No title)" else e.subject
            start := e.startTime
            «end» := e.endTime
            status := if e.showAs == "" then "busy" else e.showAs })
    | .httpError => []
    | .networkError => []

/-! ## Calendar availability aggregator (calendar.ts, class CalendarManager) -/

/-- The aggregator cache, `CachedEvents` in calendar.ts. -/
structure CachedEvents where
  events : List CalendarEvent
  fetchedAt : Int
deriving DecidableEq, Repr

/-- `CalendarManager.CACHE_TTL = 5 * 60_000`. -/
def CalendarManager.CACHE_TTL : Int := 5 * 60000

/-- `CalendarManager.fetchEvents`: each enabled-and-connected provider
contributes its fetched events; the cache is replaced wholesale with the
concatenation and the current instant. -/
def CalendarManager.fetchEvents (s : AppSettings) (g : FetchOutcome RawGoogleEvent)
    (o : FetchOutcome RawOutlookEvent) (now : Int) : CachedEvents :=
  { events :=
      (if s.calendarProviders.google && GoogleCalendarClient.isConnected s then
        GoogleCalendarClient.getUpcomingEvents s g
      else []) ++
      (if s.calendarProviders.outlook && OutlookCalendarClient.isConnected s then
        OutlookCalendarClient.getUpcomingEvents s o
      else [])
    fetchedAt := now }

/-- The scan loop of `CalendarManager.isBusyOrMeetingSoon` over the cached
events, with its early returns. -/
def busyScan (blockOnTentative : Bool) (now bufferEnd : Int) :
    List CalendarEvent → Bool
  | [] => false
  | e :: rest =>
    if !blockOnTentative && e.status == "tentative" then
      busyScan blockOnTentative now bufferEnd rest
    else if e.status == "free" then
      busyScan blockOnTentative now bufferEnd rest
    else if e.start ≤ now ∧ now < e.«end» then true
    else if now < e.start ∧ e.start ≤ bufferEnd then true
    else busyScan blockOnTentative now bufferEnd rest

/-- Result of a `CalendarManager.isBusyOrMeetingSoon` call: the boolean
answer, the cache afterwards, and the number of fetch cycles performed. -/
structure BusyQueryResult where
  busy : Bool
  cache : CachedEvents
  fetchCount : Nat
deriving DecidableEq, Repr

/-- `CalendarManager.isBusyOrMeetingSoon`: refreshes the cache first when
`now - fetchedAt > CACHE_TTL`, then scans the (possibly refreshed) cache
against the window `[now, now + bufferMinutes * 60_000]`. -/
def CalendarManager.isBusyOrMeetingSoon (cache : CachedEvents) (s : AppSettings)
    (g : FetchOutcome RawGoogleEvent) (o : FetchOutcome RawOutlookEvent)
    (now bufferMinutes : Int) : BusyQueryResult :=
  let refreshed :=
    if now - cache.fetchedAt > CalendarManager.CACHE_TTL then
      (CalendarManager.fetchEvents s g o now, 1)
    else (cache, 0)
  { busy := busyScan s.blockOnTentative now (now + bufferMinutes * 60000) refreshed.1.events
    cache := refreshed.1
    fetchCount := refreshed.2 }

/-! ## Due handler (tray.ts, TrayManager.onStretchDue) -/

/-- Result of one run of `TrayManager.onStretchDue`. -/
structure DueHandlerResult where
  timer : StretchTimer
  suppressed : Bool
  notified : Bool
deriving DecidableEq, Repr

/-- `TrayManager.onStretchDue`: resets the timer synchronously, then awaits
`isBusyOrMeetingSoon(preMeetingBufferMinutes)` and notifies only when not
busy.  The timer state observed by any tick during the await is the reset
state, independent of the busy answer. -/
def TrayManager.onStretchDue (t : StretchTimer) (s : AppSettings)
    (cache : CachedEvents) (g : FetchOutcome RawGoogleEvent)
    (o : FetchOutcome RawOutlookEvent) (now : Int) : DueHandlerResult :=
  let t2 := StretchTimer.resetTimer t now
  let busy := (CalendarManager.isBusyOrMeetingSoon cache s g o now
    s.preMeetingBufferMinutes).busy
  { timer := t2, suppressed := busy, notified := !busy }

/-! ## Token lifecycle (google-calendar.ts / outlook-calendar.ts) -/

/-- The in-memory token fields of `GoogleCalendarClient`. -/
structure GoogleClientState where
  accessToken : String
  refreshToken : String
  expiryDate : Int
deriving DecidableEq, Repr

/-- The in-memory token fields of `OutlookCalendarClient`. -/
structure OutlookClientState where
  accessToken : String
  refreshToken : String
  expiresOn : Int
deriving DecidableEq, Repr

/-- The outcome of one refresh-token HTTP exchange: a successful JSON body
(`access_token`, optional `refresh_token` — empty string when absent —
and `expires_in` seconds), or a non-ok HTTP status. -/
inductive RefreshOutcome where
  | success (accessTokenResp : String) (refreshTokenResp : String) (expiresIn : Int)
  | httpError
deriving DecidableEq, Repr

/-- `GoogleCalendarClient.refreshAccessToken`: a no-op without a refresh
token or on a non-ok response; on success updates the access token and
expiry (the refresh token is kept), and persists the full token set. -/
def GoogleCalendarClient.refreshAccessToken (st : GoogleClientState)
    (s : AppSettings) (r : RefreshOutcome) (now : Int) :
    GoogleClientState × AppSettings :=
  if st.refreshToken == "" then (st, s)
  else
    match r with
    | .httpError => (st, s)
    | .success tok _rt expiresIn =>
      let st2 : GoogleClientState :=
        { st with accessToken := tok, expiryDate := now + expiresIn * 1000 }
      let pt : GoogleTokens := ⟨st2.accessToken, st2.refreshToken, st2.expiryDate⟩
      (st2, { s with googleTokens := some pt })

/-- `OutlookCalendarClient.refreshAccessToken`: a no-op without a refresh
token or on a non-ok response; on success updates the access token, keeps
the old refresh token when the response carries none
(`tokens.refresh_token || this.refreshToken`), updates the expiry, and
persists the full token set. -/
def OutlookCalendarClient.refreshAccessToken (st : OutlookClientState)
    (s : AppSettings) (r : RefreshOutcome) (now : Int) :
    OutlookClientState × AppSettings :=
  if st.refreshToken == "" then (st, s)
  else
    match r with
    | .httpError => (st, s)
    | .success tok rt expiresIn =>
      let st2 : OutlookClientState :=
        { accessToken := tok
          refreshToken := if rt == "" then st.refreshToken else rt
          expiresOn := now + expiresIn * 1000 }
      let pt : OutlookTokens := ⟨st2.accessToken, st2.refreshToken, st2.expiresOn⟩
      (st2, { s with outlookTokens := some pt })

/-- Result of a `getValidAccessToken` call: the returned token, the client
state and settings afterwards, and whether a refresh was attempted. -/
structure TokenQueryResultG where
  token : String
  client : GoogleClientState
  settings : AppSettings
  refreshAttempted : Bool
deriving DecidableEq, Repr

/-- Result of an Outlook `getValidAccessToken` call. -/
structure TokenQueryResultO where
  token : String
  client : OutlookClientState
  settings : AppSettings
  refreshAttempted : Bool
deriving DecidableEq, Repr

/-- `GoogleCalendarClient.getValidAccessToken`:
`if (Date.now() > this.expiryDate - 60_000) await this.refreshAccessToken(); return this.accessToken`. -/
def GoogleCalendarClient.getValidAccessToken (st : GoogleClientState)
    (s : AppSettings) (r : RefreshOutcome) (now : Int) : TokenQueryResultG :=
  if now > st.expiryDate - 60000 then
    let res := GoogleCalendarClient.refreshAccessToken st s r now
    { token := res.1.accessToken, client := res.1, settings := res.2
      refreshAttempted := true }
  else
    { token := st.accessToken, client := st, settings := s
      refreshAttempted := false }

/-- `OutlookCalendarClient.getValidAccessToken`:
`if (Date.now() > this.expiresOn - 60_000) await this.refreshAccessToken(); return this.accessToken`. -/
def OutlookCalendarClient.getValidAccessToken (st : OutlookClientState)
    (s : AppSettings) (r : RefreshOutcome) (now : Int) : TokenQueryResultO :=
  if now > st.expiresOn - 60000 then
    let res := OutlookCalendarClient.refreshAccessToken st s r now
    { token := res.1.accessToken, client := res.1, settings := res.2
      refreshAttempted := true }
  else
    { token := st.accessToken, client := st, settings := s
      refreshAttempted := false }

/-! ## PKCE authenticator settlement (authenticate() in both clients)

The `authenticate()` promise in both clients wraps every resolution path in
`done`, which checks a `settled` flag and, on the first call only, closes
the local listener, cancels the timeout timer, and delivers the outcome.
The single-threaded event loop serializes the `done` calls; we model one
`authenticate()` call as a fold of the settlement attempts in the order the
event loop runs them. -/

/-- A settlement attempt reaching `done` (or a redirect request that settles
nothing): the redirect carrying a `code` whose token exchange succeeded or
failed, a redirect carrying `error`, the 120-second timeout, a listener
bind error, or a request with neither `code` nor `error`. -/
inductive AuthEvent where
  | codeRedirect (exchangeOk : Bool)
  | errorRedirect (message : String)
  | timeout
  | bindError (message : String)
  | spurious
deriving DecidableEq, Repr

/-- How the promise is settled: resolution, or one of the rejection kinds. -/
inductive AuthOutcome where
  | success
  | exchangeFailure
  | providerError (message : String)
  | timedOut
  | bindFailure (message : String)
deriving DecidableEq, Repr

/-- The outcome an event would deliver through `done`, if any. -/
def AuthEvent.outcome : AuthEvent → Option AuthOutcome
  | .codeRedirect true => some .success
  | .codeRedirect false => some .exchangeFailure
  | .errorRedirect m => some (.providerError m)
  | .timeout => some .timedOut
  | .bindError m => some (.bindFailure m)
  | .spurious => none

/-- The observable state of one `authenticate()` call: the `settled` flag,
whether the local listener is still open, whether the timeout timer is
still armed, the list of outcomes actually delivered to the promise, and
how many times `cleanup` ran. -/
structure AuthState where
  settled : Bool
  serverOpen : Bool
  timerActive : Bool
  delivered : List AuthOutcome
  cleanups : Nat
deriving DecidableEq, Repr

/-- The state at the start of an `authenticate()` call, once the listener is
created and the timeout armed. -/
def AuthState.initial : AuthState :=
  { settled := false, serverOpen := true, timerActive := true
    delivered := [], cleanups := 0 }

/-- One settlement attempt processed by `done`: ignored entirely once
`settled` is set; otherwise sets `settled`, runs `cleanup` (closes the
listener, cancels the timer) and delivers the outcome. -/
def authStep (st : AuthState) (e : AuthEvent) : AuthState :=
  match e.outcome with
  | none => st
  | some o =>
    if st.settled then st
    else
      { settled := true, serverOpen := false, timerActive := false
        delivered := st.delivered ++ [o], cleanups := st.cleanups + 1 }

/-- One `authenticate()` call observing the given serialized event sequence. -/
def authenticate (events : List AuthEvent) : AuthState :=
  events.foldl authStep AuthState.initial

/-- The first outcome among the serialized events, if any. -/
def firstAuthOutcome (events : List AuthEvent) : Option AuthOutcome :=
  events.findSome? AuthEvent.outcome

/-! ## Derived predicates and concrete fixtures -/

/-- The per-event test applied by the scan loop of `isBusyOrMeetingSoon`:
true exactly when the event causes the early `return true`. -/
def eventBlocks (blockOnTentative : Bool) (now bufferEnd : Int)
    (e : CalendarEvent) : Bool :=
  if !blockOnTentative && e.status == "tentative" then false
  else if e.status == "free" then false
  else if e.start ≤ now ∧ now < e.«end» then true
  else if now < e.start ∧ e.start ≤ bufferEnd then true
  else false

/-- The default configuration from store.ts. -/
def baseSettings : AppSettings :=
  { stretchIntervalMinutes := 30
    preMeetingBufferMinutes := 15
    snoozeDurationMinutes := 5
    calendarProviders := { google := false, outlook := false }
    blockOnTentative := true
    googleClientId := ""
    outlookClientId := "7f6d8ba2-c83e-498f-86b6-77eb0375e03f"
    outlookTenantId := "consumers"
    googleTokens := none
    outlookTokens := none }

/-- A running timer that was reset at instant 0 and snoozed until instant
300000 (a 5-minute snooze taken right after the reset). -/
def snoozeJumpTimer : StretchTimer :=
  { lastStretchTime := 0, paused := false, snoozedUntil := 300000 }

/-- The aggregator's initial cache, `{ events: [], fetchedAt: 0 }`. -/
def initialCache : CachedEvents :=
  { events := [], fetchedAt := 0 }

/-- A confirmed meeting 5 minutes ahead of instant 0 lasting 30 minutes. -/
def demoEvent : CalendarEvent :=
  { summary := "Standup", start := 300000, «end» := 2100000, status := "confirmed" }

/-- Settings whose Outlook token set holds a refresh token but an empty
access token. -/
def outlookRefreshOnlySettings : AppSettings :=
  { baseSettings with
    outlookTokens := some { accessToken := "", refreshToken := "rtok", expiresOn := 0 } }

/-- A Google client whose access token expires at instant 60000, so the
60-second safety margin is reached exactly at instant 0. -/
def boundaryClientG : GoogleClientState :=
  { accessToken := "tokA", refreshToken := "tokR", expiryDate := 60000 }

/-! ## Helper lemmas -/

theorem busyScan_cons (b : Bool) (now be : Int) (e : CalendarEvent)
    (rest : List CalendarEvent) :
    busyScan b now be (e :: rest) =
      (eventBlocks b now be e || busyScan b now be rest) := by
  show (if !b && e.status == "tentative" then busyScan b now be rest
    else if e.status == "free" then busyScan b now be rest
    else if e.start ≤ now ∧ now < e.«end» then true
    else if now < e.start ∧ e.start ≤ be then true
    else busyScan b now be rest) = _
  unfold eventBlocks
  split_ifs <;> simp

theorem busyScan_eq_any (b : Bool) (now be : Int) (l : List CalendarEvent) :
    busyScan b now be l = l.any (fun e => eventBlocks b now be e) := by
  induction l with
  | nil => rfl
  | cons e rest ih => rw [busyScan_cons, List.any_cons, ih]

theorem eventBlocks_eq_true_iff (b : Bool) (now be : Int) (e : CalendarEvent) :
    eventBlocks b now be e = true ↔
      e.status ≠ "free" ∧ (e.status ≠ "tentative" ∨ b = true) ∧
        ((e.start ≤ now ∧ now < e.«end») ∨ (now < e.start ∧ e.start ≤ be)) := by
  cases b <;>
    (unfold eventBlocks; split_ifs <;>
      simp_all [Bool.and_eq_true, Bool.not_eq_true'])

theorem authStep_of_settled (st : AuthState) (e : AuthEvent)
    (h : st.settled = true) : authStep st e = st := by
  unfold authStep
  cases e.outcome <;> simp [h]

theorem foldl_authStep_of_settled (es : List AuthEvent) (st : AuthState)
    (h : st.settled = true) : es.foldl authStep st = st := by
  induction es with
  | nil => rfl
  | cons e es ih => rw [List.foldl_cons, authStep_of_settled st e h, ih]

/-! ## Claims -/

/-- C1, counterexample to the claim as stated: with an Outlook token set
holding a refresh token but an empty access token, `isConnected()` is true
while the `get-settings` result reports `outlookConnected = false`, so the
reported status does not equal the `isConnected()` condition for Outlook. -/
theorem claim_C1_counterexample :
    OutlookCalendarClient.isConnected outlookRefreshOnlySettings = true ∧
    (getSettingsHandler outlookRefreshOnlySettings).outlookConnected = false := by
  exact ⟨by decide, by decide⟩

/-- C1, amended: for each provider `isConnected()` is true iff a refresh
token is present in the persisted configuration, and the `get-settings`
result's `googleConnected` equals that condition for Google; for Outlook,
however, the `get-settings` result's `outlookConnected` reports the presence
of a persisted access token, not the refresh token, and so can differ from
`isConnected()`. -/
theorem claim_C1_amended (s : AppSettings) :
    (GoogleCalendarClient.isConnected s = true ↔
      ∃ t, s.googleTokens = some t ∧ t.refresh_token ≠ "") ∧
    (getSettingsHandler s).googleConnected = GoogleCalendarClient.isConnected s ∧
    (OutlookCalendarClient.isConnected s = true ↔
      ∃ t, s.outlookTokens = some t ∧ t.refreshToken ≠ "") ∧
    ((getSettingsHandler s).outlookConnected = true ↔
      ∃ t, s.outlookTokens = some t ∧ t.accessToken ≠ "") := by
  refine ⟨?_, ?_, ?_, ?_⟩
  · unfold GoogleCalendarClient.isConnected
    cases s.googleTokens <;> simp
  · unfold getSettingsHandler GoogleCalendarClient.isConnected
    cases s.googleTokens <;> simp
  · unfold OutlookCalendarClient.isConnected
    cases s.outlookTokens <;> simp
  · unfold getSettingsHandler
    cases s.outlookTokens <;> simp

/-- C1 witness: the amended claim evaluated on the concrete configuration
`outlookRefreshOnlySettings`. -/
theorem claim_C1_witness :
    (getSettingsHandler outlookRefreshOnlySettings).googleConnected =
      GoogleCalendarClient.isConnected outlookRefreshOnlySettings :=
  (claim_C1_amended outlookRefreshOnlySettings).2.1

/-- C3: every periodic check emits `tick` regardless of paused or snoozed
state, and emits `stretch-due` iff the timer is not paused, now is not
before snoozed-until, and `now - lastStretchTime` is at least the configured
reminder interval. -/
theorem claim_C3 (t : StretchTimer) (s : AppSettings) (now : Int) :
    (StretchTimer.tick t s now).tickEmitted = true ∧
    ((StretchTimer.tick t s now).stretchDueEmitted = true ↔
      (t.paused = false ∧ t.snoozedUntil ≤ now ∧
        s.stretchIntervalMinutes * 60000 ≤ now - t.lastStretchTime)) := by
  refine ⟨rfl, ?_⟩
  show (if t.paused then false
    else if now < t.snoozedUntil then false
    else if now - t.lastStretchTime ≥ s.stretchIntervalMinutes * 60000 then true
    else false) = true ↔ _
  cases hp : t.paused <;> split_ifs <;> simp_all

/-- C3 witness: concrete evaluation of the tick signals. -/
theorem claim_C3_witness :
    (StretchTimer.tick snoozeJumpTimer baseSettings 0).tickEmitted = true :=
  (claim_C3 snoozeJumpTimer baseSettings 0).1

theorem any_eq_of_perm {α : Type} {l l' : List α} (h : l.Perm l') (f : α → Bool) :
    l.any f = l'.any f := by
  cases hb : l'.any f
  · rw [List.any_eq_false] at hb ⊢
    intro x hx
    exact hb x (h.mem_iff.mp hx)
  · rw [List.any_eq_true] at hb ⊢
    obtain ⟨x, hx, hfx⟩ := hb
    exact ⟨x, h.mem_iff.mpr hx, hfx⟩

/-- C2: with a fresh cache, `isBusyOrMeetingSoon(bufferMinutes)` returns true
iff some cached event has a status other than `free`, a status other than
`tentative` unless `blockOnTentative` is set, and is either in progress
(`start ≤ now < end`) or starts within the buffer window
(`now < start ≤ now + bufferMinutes`); and the answer is invariant under
permuting the cached event sequence. -/
theorem claim_C2 :
    (∀ (cache : CachedEvents) (s : AppSettings) (g : FetchOutcome RawGoogleEvent)
      (o : FetchOutcome RawOutlookEvent) (now bufferMinutes : Int),
      now - cache.fetchedAt ≤ CalendarManager.CACHE_TTL →
      ((CalendarManager.isBusyOrMeetingSoon cache s g o now bufferMinutes).busy = true ↔
        ∃ e ∈ cache.events,
          e.status ≠ "free" ∧ (e.status ≠ "tentative" ∨ s.blockOnTentative = true) ∧
          ((e.start ≤ now ∧ now < e.«end») ∨
            (now < e.start ∧ e.start ≤ now + bufferMinutes * 60000)))) ∧
    (∀ (cache cache' : CachedEvents) (s : AppSettings) (g : FetchOutcome RawGoogleEvent)
      (o : FetchOutcome RawOutlookEvent) (now bufferMinutes : Int),
      cache.events.Perm cache'.events → cache.fetchedAt = cache'.fetchedAt →
      (CalendarManager.isBusyOrMeetingSoon cache s g o now bufferMinutes).busy =
        (CalendarManager.isBusyOrMeetingSoon cache' s g o now bufferMinutes).busy) := by
  constructor
  · intro cache s g o now bufferMinutes hFresh
    show busyScan s.blockOnTentative now (now + bufferMinutes * 60000)
      (if now - cache.fetchedAt > CalendarManager.CACHE_TTL then
        (CalendarManager.fetchEvents s g o now, 1) else (cache, 0)).1.events = true ↔ _
    rw [if_neg (not_lt.mpr hFresh)]
    rw [busyScan_eq_any, List.any_eq_true]
    exact exists_congr fun e =>
      and_congr_right fun _ => eventBlocks_eq_true_iff _ _ _ _
  · intro cache cache' s g o now bufferMinutes hPerm hFA
    show busyScan s.blockOnTentative now (now + bufferMinutes * 60000)
      (if now - cache.fetchedAt > CalendarManager.CACHE_TTL then
        (CalendarManager.fetchEvents s g o now, 1) else (cache, 0)).1.events =
      busyScan s.blockOnTentative now (now + bufferMinutes * 60000)
      (if now - cache'.fetchedAt > CalendarManager.CACHE_TTL then
        (CalendarManager.fetchEvents s g o now, 1) else (cache', 0)).1.events
    rw [hFA]
    by_cases hStale : now - cache'.fetchedAt > CalendarManager.CACHE_TTL
    · rw [if_pos hStale, if_pos hStale]
    · rw [if_neg hStale, if_neg hStale]
      rw [busyScan_eq_any, busyScan_eq_any]
      exact any_eq_of_perm hPerm _

/-- C2 witness: a confirmed meeting starting 5 minutes ahead, buffer 15
minutes, fresh cache: the query answers true. -/
theorem claim_C2_witness :
    (CalendarManager.isBusyOrMeetingSoon (CachedEvents.mk [demoEvent] 0) baseSettings
      FetchOutcome.httpError FetchOutcome.httpError 0 15).busy = true := by
  refine (claim_C2.1 _ _ _ _ _ _ (by decide)).mpr ?_
  exact ⟨demoEvent, by simp, by decide, Or.inl (by decide), by decide⟩

/-- C4, counterexample to the claim as stated: with the timer running and
its state untouched between the two instants (no reset and no snooze call in
between), `getRemainingMs` increases as now advances across the
snoozed-until instant, so it is not monotonically non-increasing in now
between resets/snoozes while Running. -/
theorem claim_C4_counterexample :
    snoozeJumpTimer.paused = false ∧
    (299000 : Int) ≤ 300000 ∧
    StretchTimer.getRemainingMs snoozeJumpTimer baseSettings 299000 <
      StretchTimer.getRemainingMs snoozeJumpTimer baseSettings 300000 := by
  refine ⟨rfl, by norm_num, ?_⟩
  decide

/-- C4, amended: `getRemainingMs()` returns −1 whenever paused; when not
paused and now < snoozed-until it returns exactly snoozed-until − now;
otherwise it returns max(0, interval − (now − last-reset)); it is never
negative except for the paused sentinel −1; and while Running it is
monotonically non-increasing in now between resets/snoozes provided both
instants are on the same side of snoozed-until — at the instant
snoozed-until passes the value can jump up to the interval remainder,
because snooze() does not move last-reset. -/
theorem claim_C4_amended :
    (∀ (t : StretchTimer) (s : AppSettings) (now : Int),
      t.paused = true → StretchTimer.getRemainingMs t s now = -1) ∧
    (∀ (t : StretchTimer) (s : AppSettings) (now : Int),
      t.paused = false → now < t.snoozedUntil →
      StretchTimer.getRemainingMs t s now = t.snoozedUntil - now) ∧
    (∀ (t : StretchTimer) (s : AppSettings) (now : Int),
      t.paused = false → t.snoozedUntil ≤ now →
      StretchTimer.getRemainingMs t s now =
        max 0 (s.stretchIntervalMinutes * 60000 - (now - t.lastStretchTime))) ∧
    (∀ (t : StretchTimer) (s : AppSettings) (now : Int),
      t.paused = false → 0 ≤ StretchTimer.getRemainingMs t s now) ∧
    (∀ (t : StretchTimer) (s : AppSettings) (now₁ now₂ : Int),
      t.paused = false → now₁ ≤ now₂ → now₂ < t.snoozedUntil →
      StretchTimer.getRemainingMs t s now₂ ≤ StretchTimer.getRemainingMs t s now₁) ∧
    (∀ (t : StretchTimer) (s : AppSettings) (now₁ now₂ : Int),
      t.paused = false → t.snoozedUntil ≤ now₁ → now₁ ≤ now₂ →
      StretchTimer.getRemainingMs t s now₂ ≤ StretchTimer.getRemainingMs t s now₁) := by
  refine ⟨?_, ?_, ?_, ?_, ?_, ?_⟩
  · intro t s now hp
    simp [StretchTimer.getRemainingMs, hp]
  · intro t s now hp hsn
    simp [StretchTimer.getRemainingMs, hp, hsn]
  · intro t s now hp hsn
    simp [StretchTimer.getRemainingMs, hp, not_lt.mpr hsn]
  · intro t s now hp
    simp only [StretchTimer.getRemainingMs, hp, if_false, Bool.false_eq_true]
    split_ifs with h
    · omega
    · exact le_max_left 0 _
  · intro t s now₁ now₂ hp h12 h2s
    rw [(by simp [StretchTimer.getRemainingMs, hp, h2s] :
      StretchTimer.getRemainingMs t s now₂ = t.snoozedUntil - now₂)]
    rw [(by simp [StretchTimer.getRemainingMs, hp, lt_of_le_of_lt h12 h2s] :
      StretchTimer.getRemainingMs t s now₁ = t.snoozedUntil - now₁)]
    omega
  · intro t s now₁ now₂ hp hs1 h12
    rw [(by simp [StretchTimer.getRemainingMs, hp, not_lt.mpr (le_trans hs1 h12)] :
      StretchTimer.getRemainingMs t s now₂ =
        max 0 (s.stretchIntervalMinutes * 60000 - (now₂ - t.lastStretchTime)))]
    rw [(by simp [StretchTimer.getRemainingMs, hp, not_lt.mpr hs1] :
      StretchTimer.getRemainingMs t s now₁ =
        max 0 (s.stretchIntervalMinutes * 60000 - (now₁ - t.lastStretchTime)))]
    exact max_le_max (le_refl 0) (by omega)

/-- C4 witness: the amended claim evaluated at concrete states and instants. -/
theorem claim_C4_witness :
    StretchTimer.getRemainingMs (StretchTimer.pause snoozeJumpTimer) baseSettings 100 = -1 ∧
    StretchTimer.getRemainingMs snoozeJumpTimer baseSettings 100000 =
      snoozeJumpTimer.snoozedUntil - 100000 ∧
    StretchTimer.getRemainingMs snoozeJumpTimer baseSettings 400000 =
      max 0 (baseSettings.stretchIntervalMinutes * 60000 -
        (400000 - snoozeJumpTimer.lastStretchTime)) ∧
    0 ≤ StretchTimer.getRemainingMs snoozeJumpTimer baseSettings 1000 ∧
    StretchTimer.getRemainingMs snoozeJumpTimer baseSettings 200000 ≤
      StretchTimer.getRemainingMs snoozeJumpTimer baseSettings 100000 ∧
    StretchTimer.getRemainingMs snoozeJumpTimer baseSettings 500000 ≤
      StretchTimer.getRemainingMs snoozeJumpTimer baseSettings 400000 :=
  ⟨claim_C4_amended.1 _ baseSettings _ rfl,
    claim_C4_amended.2.1 _ _ _ rfl (by decide),
    claim_C4_amended.2.2.1 _ _ _ rfl (by decide),
    claim_C4_amended.2.2.2.1 _ _ _ rfl,
    claim_C4_amended.2.2.2.2.1 _ _ _ _ rfl (by norm_num) (by decide),
    claim_C4_amended.2.2.2.2.2 _ _ _ _ rfl (by decide) (by norm_num)⟩

/-- C5: `resetTimer()` sets last-reset to now and clears snoozed-until; the
reminder-due handler's timer state at the suspension point is exactly the
reset state, independent of the suppression answer; and a tick occurring
less than one configured interval after the reset never emits `stretch-due`,
so no second reminder can fire during a slow suppression check. -/
theorem claim_C5 :
    (∀ (t : StretchTimer) (now : Int),
      (StretchTimer.resetTimer t now).lastStretchTime = now ∧
      (StretchTimer.resetTimer t now).snoozedUntil = 0 ∧
      (StretchTimer.resetTimer t now).paused = t.paused) ∧
    (∀ (t : StretchTimer) (s : AppSettings) (cache : CachedEvents)
      (g : FetchOutcome RawGoogleEvent) (o : FetchOutcome RawOutlookEvent) (now : Int),
      (TrayManager.onStretchDue t s cache g o now).timer = StretchTimer.resetTimer t now) ∧
    (∀ (t : StretchTimer) (s : AppSettings) (cache : CachedEvents)
      (g : FetchOutcome RawGoogleEvent) (o : FetchOutcome RawOutlookEvent)
      (now tickT : Int),
      tickT - now < s.stretchIntervalMinutes * 60000 →
      (StretchTimer.tick (TrayManager.onStretchDue t s cache g o now).timer s
        tickT).stretchDueEmitted = false) := by
  refine ⟨fun t now => ⟨rfl, rfl, rfl⟩, fun t s cache g o now => rfl, ?_⟩
  intro t s cache g o now tickT hlt
  show (if t.paused then false
    else if tickT < (0 : Int) then false
    else if tickT - now ≥ s.stretchIntervalMinutes * 60000 then true
    else false) = false
  split_ifs with h1 h2 h3
  · rfl
  · rfl
  · omega
  · rfl

/-- C5 witness: a tick 1 second after the reset performed by the due
handler (interval 30 minutes) emits no `stretch-due`. -/
theorem claim_C5_witness :
    (StretchTimer.tick (TrayManager.onStretchDue snoozeJumpTimer baseSettings
      initialCache FetchOutcome.httpError FetchOutcome.httpError 1000).timer
      baseSettings 2000).stretchDueEmitted = false :=
  claim_C5.2.2 snoozeJumpTimer baseSettings initialCache
    FetchOutcome.httpError FetchOutcome.httpError 1000 2000 (by norm_num [baseSettings])

/-- C6: when the cache is stale (`now - fetchedAt > CACHE_TTL`),
`isBusyOrMeetingSoon` performs exactly one fetch cycle and scans the freshly
fetched event set; when the cache is fresh it performs no fetch and scans
the prior cached set. -/
theorem claim_C6 :
    (∀ (cache : CachedEvents) (s : AppSettings) (g : FetchOutcome RawGoogleEvent)
      (o : FetchOutcome RawOutlookEvent) (now bufferMinutes : Int),
      now - cache.fetchedAt > CalendarManager.CACHE_TTL →
      (CalendarManager.isBusyOrMeetingSoon cache s g o now bufferMinutes).fetchCount = 1 ∧
      (CalendarManager.isBusyOrMeetingSoon cache s g o now bufferMinutes).cache =
        CalendarManager.fetchEvents s g o now ∧
      (CalendarManager.isBusyOrMeetingSoon cache s g o now bufferMinutes).busy =
        busyScan s.blockOnTentative now (now + bufferMinutes * 60000)
          (CalendarManager.fetchEvents s g o now).events) ∧
    (∀ (cache : CachedEvents) (s : AppSettings) (g : FetchOutcome RawGoogleEvent)
      (o : FetchOutcome RawOutlookEvent) (now bufferMinutes : Int),
      now - cache.fetchedAt ≤ CalendarManager.CACHE_TTL →
      (CalendarManager.isBusyOrMeetingSoon cache s g o now bufferMinutes).fetchCount = 0 ∧
      (CalendarManager.isBusyOrMeetingSoon cache s g o now bufferMinutes).cache = cache ∧
      (CalendarManager.isBusyOrMeetingSoon cache s g o now bufferMinutes).busy =
        busyScan s.blockOnTentative now (now + bufferMinutes * 60000) cache.events) := by
  constructor
  · intro cache s g o now bufferMinutes hStale
    unfold CalendarManager.isBusyOrMeetingSoon
    rw [if_pos hStale]
    exact ⟨rfl, rfl, rfl⟩
  · intro cache s g o now bufferMinutes hFresh
    unfold CalendarManager.isBusyOrMeetingSoon
    rw [if_neg (not_lt.mpr hFresh)]
    exact ⟨rfl, rfl, rfl⟩

/-- C6 witness: at instant 600000 the initial cache (fetched-at 0) is stale
and triggers one fetch; a cache fetched at 500000 is fresh and triggers
none. -/
theorem claim_C6_witness :
    (CalendarManager.isBusyOrMeetingSoon initialCache baseSettings
      FetchOutcome.httpError FetchOutcome.httpError 600000 15).fetchCount = 1 ∧
    (CalendarManager.isBusyOrMeetingSoon (CachedEvents.mk [] 500000) baseSettings
      FetchOutcome.httpError FetchOutcome.httpError 600000 15).fetchCount = 0 :=
  ⟨(claim_C6.1 initialCache baseSettings FetchOutcome.httpError FetchOutcome.httpError
      600000 15 (by decide)).1,
    (claim_C6.2 (CachedEvents.mk [] 500000) baseSettings FetchOutcome.httpError
      FetchOutcome.httpError 600000 15 (by decide)).1⟩

/-- C7: each fetch cycle replaces the cache wholesale with the concatenation
of the two providers' contributions and the current instant as fetched-at; a
provider that is disabled or not connected contributes zero events; and a
failed provider fetch (HTTP or network error) yields an empty sequence for
that provider while the other provider's contribution is still published. -/
theorem claim_C7 :
    (∀ (s : AppSettings) (g : FetchOutcome RawGoogleEvent)
      (o : FetchOutcome RawOutlookEvent) (now : Int),
      (CalendarManager.fetchEvents s g o now).fetchedAt = now ∧
      (CalendarManager.fetchEvents s g o now).events =
        (if s.calendarProviders.google && GoogleCalendarClient.isConnected s then
          GoogleCalendarClient.getUpcomingEvents s g
        else []) ++
        (if s.calendarProviders.outlook && OutlookCalendarClient.isConnected s then
          OutlookCalendarClient.getUpcomingEvents s o
        else [])) ∧
    (∀ (s : AppSettings) (g : FetchOutcome RawGoogleEvent)
      (o : FetchOutcome RawOutlookEvent) (now : Int),
      s.calendarProviders.google = false ∨ GoogleCalendarClient.isConnected s = false →
      (CalendarManager.fetchEvents s g o now).events =
        (if s.calendarProviders.outlook && OutlookCalendarClient.isConnected s then
          OutlookCalendarClient.getUpcomingEvents s o
        else [])) ∧
    (∀ (s : AppSettings) (g : FetchOutcome RawGoogleEvent)
      (o : FetchOutcome RawOutlookEvent) (now : Int),
      s.calendarProviders.outlook = false ∨ OutlookCalendarClient.isConnected s = false →
      (CalendarManager.fetchEvents s g o now).events =
        (if s.calendarProviders.google && GoogleCalendarClient.isConnected s then
          GoogleCalendarClient.getUpcomingEvents s g
        else [])) ∧
    (∀ (s : AppSettings) (g : FetchOutcome RawGoogleEvent)
      (o : FetchOutcome RawOutlookEvent) (now : Int),
      g = FetchOutcome.httpError ∨ g = FetchOutcome.networkError →
      GoogleCalendarClient.getUpcomingEvents s g = [] ∧
      (CalendarManager.fetchEvents s g o now).events =
        (if s.calendarProviders.outlook && OutlookCalendarClient.isConnected s then
          OutlookCalendarClient.getUpcomingEvents s o
        else [])) ∧
    (∀ (s : AppSettings) (g : FetchOutcome RawGoogleEvent)
      (o : FetchOutcome RawOutlookEvent) (now : Int),
      o = FetchOutcome.httpError ∨ o = FetchOutcome.networkError →
      OutlookCalendarClient.getUpcomingEvents s o = [] ∧
      (CalendarManager.fetchEvents s g o now).events =
        (if s.calendarProviders.google && GoogleCalendarClient.isConnected s then
          GoogleCalendarClient.getUpcomingEvents s g
        else [])) := by
  have hg : ∀ (s : AppSettings) (g : FetchOutcome RawGoogleEvent),
      g = FetchOutcome.httpError ∨ g = FetchOutcome.networkError →
      GoogleCalendarClient.getUpcomingEvents s g = [] := by
    intro s g hfail
    rcases hfail with h | h <;> subst h <;>
      (unfold GoogleCalendarClient.getUpcomingEvents; split <;> rfl)
  have ho : ∀ (s : AppSettings) (o : FetchOutcome RawOutlookEvent),
      o = FetchOutcome.httpError ∨ o = FetchOutcome.networkError →
      OutlookCalendarClient.getUpcomingEvents s o = [] := by
    intro s o hfail
    rcases hfail with h | h <;> subst h <;>
      (unfold OutlookCalendarClient.getUpcomingEvents; split <;> rfl)
  refine ⟨fun s g o now => ⟨rfl, rfl⟩, ?_, ?_, ?_, ?_⟩
  · intro s g o now hoff
    show (if s.calendarProviders.google && GoogleCalendarClient.isConnected s then
        GoogleCalendarClient.getUpcomingEvents s g
      else []) ++ _ = _
    have : (s.calendarProviders.google && GoogleCalendarClient.isConnected s) = false := by
      rcases hoff with h | h <;> simp [h]
    rw [this]
    simp
  · intro s g o now hoff
    show _ ++ (if s.calendarProviders.outlook && OutlookCalendarClient.isConnected s then
        OutlookCalendarClient.getUpcomingEvents s o
      else []) = _
    have : (s.calendarProviders.outlook && OutlookCalendarClient.isConnected s) = false := by
      rcases hoff with h | h <;> simp [h]
    rw [this]
    simp
  · intro s g o now hfail
    refine ⟨hg s g hfail, ?_⟩
    show (if s.calendarProviders.google && GoogleCalendarClient.isConnected s then
        GoogleCalendarClient.getUpcomingEvents s g
      else []) ++ _ = _
    rw [hg s g hfail]
    simp
  · intro s g o now hfail
    refine ⟨ho s o hfail, ?_⟩
    show _ ++ (if s.calendarProviders.outlook && OutlookCalendarClient.isConnected s then
        OutlookCalendarClient.getUpcomingEvents s o
      else []) = _
    rw [ho s o hfail]
    simp

/-- C7 witness: with the default configuration (both providers disabled) and
a failing Google fetch, the cycle still replaces the cache with fetched-at
42, and the failing provider contributes the empty sequence. -/
theorem claim_C7_witness :
    (CalendarManager.fetchEvents baseSettings FetchOutcome.httpError
      FetchOutcome.httpError 42).fetchedAt = 42 ∧
    GoogleCalendarClient.getUpcomingEvents baseSettings FetchOutcome.httpError = [] :=
  ⟨(claim_C7.1 baseSettings FetchOutcome.httpError FetchOutcome.httpError 42).1,
    (claim_C7.2.2.2.1 baseSettings FetchOutcome.httpError FetchOutcome.httpError 42
      (Or.inl rfl)).1⟩

/-- C8, counterexample to the claim as stated: at the boundary instant
`now = expiry − 60s` (claimed to trigger a refresh), the code performs no
refresh-token exchange, because the guard is the strict
`Date.now() > expiry - 60_000`. -/
theorem claim_C8_counterexample :
    boundaryClientG.expiryDate - 60000 = 0 ∧
    (GoogleCalendarClient.getValidAccessToken boundaryClientG baseSettings
      (RefreshOutcome.success "newTok" "" 3600) 0).refreshAttempted = false := by
  exact ⟨by decide, by decide⟩

/-- C8, amended: `getValidAccessToken()` performs a refresh-token exchange
iff now is strictly past `expiry − 60s` (the boundary instant itself does
not trigger a refresh); and on a refresh failure — non-success HTTP status
or absent refresh token — the in-memory token fields and the persisted
configuration are left unchanged and the previous access token is returned.
Both the Google and the Outlook client behave this way. -/
theorem claim_C8_amended :
    (∀ (st : GoogleClientState) (s : AppSettings) (r : RefreshOutcome) (now : Int),
      (GoogleCalendarClient.getValidAccessToken st s r now).refreshAttempted =
        decide (now > st.expiryDate - 60000)) ∧
    (∀ (st : GoogleClientState) (s : AppSettings) (r : RefreshOutcome) (now : Int),
      st.refreshToken = "" →
      GoogleCalendarClient.getValidAccessToken st s r now =
        ⟨st.accessToken, st, s, decide (now > st.expiryDate - 60000)⟩) ∧
    (∀ (st : GoogleClientState) (s : AppSettings) (now : Int),
      GoogleCalendarClient.getValidAccessToken st s RefreshOutcome.httpError now =
        ⟨st.accessToken, st, s, decide (now > st.expiryDate - 60000)⟩) ∧
    (∀ (st : OutlookClientState) (s : AppSettings) (r : RefreshOutcome) (now : Int),
      (OutlookCalendarClient.getValidAccessToken st s r now).refreshAttempted =
        decide (now > st.expiresOn - 60000)) ∧
    (∀ (st : OutlookClientState) (s : AppSettings) (r : RefreshOutcome) (now : Int),
      st.refreshToken = "" →
      OutlookCalendarClient.getValidAccessToken st s r now =
        ⟨st.accessToken, st, s, decide (now > st.expiresOn - 60000)⟩) ∧
    (∀ (st : OutlookClientState) (s : AppSettings) (now : Int),
      OutlookCalendarClient.getValidAccessToken st s RefreshOutcome.httpError now =
        ⟨st.accessToken, st, s, decide (now > st.expiresOn - 60000)⟩) := by
  have hreG : ∀ (st : GoogleClientState) (s : AppSettings) (now : Int),
      GoogleCalendarClient.refreshAccessToken st s RefreshOutcome.httpError now = (st, s) := by
    intro st s now
    unfold GoogleCalendarClient.refreshAccessToken
    split_ifs <;> rfl
  have hreO : ∀ (st : OutlookClientState) (s : AppSettings) (now : Int),
      OutlookCalendarClient.refreshAccessToken st s RefreshOutcome.httpError now = (st, s) := by
    intro st s now
    unfold OutlookCalendarClient.refreshAccessToken
    split_ifs <;> rfl
  have hremptyG : ∀ (st : GoogleClientState) (s : AppSettings) (r : RefreshOutcome) (now : Int),
      st.refreshToken = "" →
      GoogleCalendarClient.refreshAccessToken st s r now = (st, s) := by
    intro st s r now h
    unfold GoogleCalendarClient.refreshAccessToken
    rw [if_pos (by simp [h])]
  have hremptyO : ∀ (st : OutlookClientState) (s : AppSettings) (r : RefreshOutcome) (now : Int),
      st.refreshToken = "" →
      OutlookCalendarClient.refreshAccessToken st s r now = (st, s) := by
    intro st s r now h
    unfold OutlookCalendarClient.refreshAccessToken
    rw [if_pos (by simp [h])]
  refine ⟨?_, ?_, ?_, ?_, ?_, ?_⟩
  · intro st s r now
    unfold GoogleCalendarClient.getValidAccessToken
    split_ifs with h
    · exact (decide_eq_true h).symm
    · exact (decide_eq_false h).symm
  · intro st s r now h
    unfold GoogleCalendarClient.getValidAccessToken
    split_ifs with hlt
    · rw [hremptyG st s r now h, decide_eq_true hlt]
    · rw [decide_eq_false hlt]
  · intro st s now
    unfold GoogleCalendarClient.getValidAccessToken
    split_ifs with hlt
    · rw [hreG st s now, decide_eq_true hlt]
    · rw [decide_eq_false hlt]
  · intro st s r now
    unfold OutlookCalendarClient.getValidAccessToken
    split_ifs with h
    · exact (decide_eq_true h).symm
    · exact (decide_eq_false h).symm
  · intro st s r now h
    unfold OutlookCalendarClient.getValidAccessToken
    split_ifs with hlt
    · rw [hremptyO st s r now h, decide_eq_true hlt]
    · rw [decide_eq_false hlt]
  · intro st s now
    unfold OutlookCalendarClient.getValidAccessToken
    split_ifs with hlt
    · rw [hreO st s now, decide_eq_true hlt]
    · rw [decide_eq_false hlt]

/-- C8 witness: strictly past the margin with a failing refresh, the client
attempts the refresh, keeps its previous state and returns the previous
access token. -/
theorem claim_C8_witness :
    GoogleCalendarClient.getValidAccessToken boundaryClientG baseSettings
      RefreshOutcome.httpError 50000 =
      ⟨boundaryClientG.accessToken, boundaryClientG, baseSettings, true⟩ := by
  rw [claim_C8_amended.2.2.1 boundaryClientG baseSettings 50000]
  decide

/-- C9: over the serialized settlement attempts of one `authenticate()`
call, exactly the first outcome among {successful exchange, exchange
failure, provider error redirect, timeout, listener bind error} is
delivered to the promise; that first outcome triggers the cleanup (listener
teardown and timer cancellation) exactly once; later outcomes are ignored
by the settled-flag guard; and once settled the local listener is closed
and the timer cancelled. -/
theorem claim_C9 (events : List AuthEvent) :
    (authenticate events).delivered = (firstAuthOutcome events).toList ∧
    (authenticate events).cleanups =
      (if (firstAuthOutcome events).isSome then 1 else 0) ∧
    (authenticate events).settled = (firstAuthOutcome events).isSome ∧
    ((firstAuthOutcome events).isSome = true →
      (authenticate events).serverOpen = false ∧
      (authenticate events).timerActive = false) := by
  induction events with
  | nil =>
    refine ⟨rfl, rfl, rfl, ?_⟩
    intro h
    simp [firstAuthOutcome] at h
  | cons e es ih =>
    cases ho : e.outcome with
    | none =>
      have h1 : authenticate (e :: es) = authenticate es := by
        show List.foldl authStep (authStep AuthState.initial e) es = _
        have : authStep AuthState.initial e = AuthState.initial := by
          unfold authStep
          rw [ho]
        rw [this]
        rfl
      have h2 : firstAuthOutcome (e :: es) = firstAuthOutcome es := by
        unfold firstAuthOutcome
        rw [List.findSome?_cons, ho]
      rw [h1, h2]
      exact ih
    | some o =>
      have h1 : authenticate (e :: es) =
          { settled := true, serverOpen := false, timerActive := false
            delivered := [o], cleanups := 1 } := by
        show List.foldl authStep (authStep AuthState.initial e) es = _
        have : authStep AuthState.initial e =
            { settled := true, serverOpen := false, timerActive := false
              delivered := [o], cleanups := 1 } := by
          unfold authStep
          rw [ho]
          rfl
        rw [this]
        exact foldl_authStep_of_settled es _ rfl
      have h2 : firstAuthOutcome (e :: es) = some o := by
        unfold firstAuthOutcome
        rw [List.findSome?_cons, ho]
      rw [h1, h2]
      exact ⟨rfl, rfl, rfl, fun _ => ⟨rfl, rfl⟩⟩

/-- C9 witness: when the timeout fires first and a code redirect with a
successful exchange arrives afterwards, only the timeout rejection is
delivered, cleanup runs once, and the listener ends up closed. -/
theorem claim_C9_witness :
    (authenticate [AuthEvent.timeout, AuthEvent.codeRedirect true]).delivered =
      [AuthOutcome.timedOut] ∧
    (authenticate [AuthEvent.timeout, AuthEvent.codeRedirect true]).cleanups = 1 ∧
    (authenticate [AuthEvent.timeout, AuthEvent.codeRedirect true]).serverOpen = false := by
  have h := claim_C9 [AuthEvent.timeout, AuthEvent.codeRedirect true]
  exact ⟨by rw [h.1]; rfl, by rw [h.2.1]; rfl, (h.2.2.2 (by rfl)).1⟩

/-- C10: `snooze()` sets only snoozed-until (to now plus the configured
snooze duration), leaving last-reset and the paused flag unchanged; if the
configured interval had already elapsed when the snooze was taken, the
first tick at or after snoozed-until emits `stretch-due` without a further
full interval elapsing; and among the scheduler operations only
`resetTimer()`, `resume()` and `start()` move the elapsed-time origin
(`pause()` and `snooze()` leave it unchanged). -/
theorem claim_C10 :
    (∀ (t : StretchTimer) (s : AppSettings) (now : Int),
      (StretchTimer.snooze t s now).snoozedUntil =
        now + s.snoozeDurationMinutes * 60000 ∧
      (StretchTimer.snooze t s now).lastStretchTime = t.lastStretchTime ∧
      (StretchTimer.snooze t s now).paused = t.paused) ∧
    (∀ (t : StretchTimer) (s : AppSettings) (now tickT : Int),
      t.paused = false →
      s.stretchIntervalMinutes * 60000 ≤ now - t.lastStretchTime →
      0 ≤ s.snoozeDurationMinutes →
      (StretchTimer.snooze t s now).snoozedUntil ≤ tickT →
      (StretchTimer.tick (StretchTimer.snooze t s now) s tickT).stretchDueEmitted = true) ∧
    (∀ t : StretchTimer, (StretchTimer.pause t).lastStretchTime = t.lastStretchTime) ∧
    (∀ (t : StretchTimer) (now : Int),
      (StretchTimer.resetTimer t now).lastStretchTime = now) ∧
    (∀ (t : StretchTimer) (now : Int),
      (StretchTimer.resume t now).lastStretchTime = now) ∧
    (∀ (t : StretchTimer) (now : Int),
      (StretchTimer.start t now).lastStretchTime = now) := by
  refine ⟨fun t s now => ⟨rfl, rfl, rfl⟩, ?_, fun t => rfl, fun t now => rfl,
    fun t now => rfl, fun t now => rfl⟩
  intro t s now tickT hp hElapsed hD hTick
  have hTick' : now + s.snoozeDurationMinutes * 60000 ≤ tickT := hTick
  show (if t.paused then false
    else if tickT < now + s.snoozeDurationMinutes * 60000 then false
    else if tickT - t.lastStretchTime ≥ s.stretchIntervalMinutes * 60000 then true
    else false) = true
  split_ifs with h1 h2 h3
  · exact absurd (hp ▸ h1) Bool.false_ne_true
  · omega
  · rfl
  · omega

/-- C10 witness: timer reset at 0, interval 30 min already elapsed at
instant 1800000 where a 5-minute snooze is taken; the tick at the snooze
expiry 2100000 emits `stretch-due`. -/
theorem claim_C10_witness :
    (StretchTimer.tick
      (StretchTimer.snooze (StretchTimer.mk 0 false 0) baseSettings 1800000)
      baseSettings 2100000).stretchDueEmitted = true :=
  claim_C10.2.1 (StretchTimer.mk 0 false 0) baseSettings 1800000 2100000 rfl
    (by decide) (by decide) (by decide)
